import Mathlib

/-!
Verification development for the biometry plugin core
(status / authenticate / has_data / get_data / set_data / remove_data).

The definitions below are a shallow embedding of the Rust sources:
`src/models.rs`, `src/macos.rs`, `src/windows.rs`, `src/desktop.rs`,
`src/lib.rs`.  Native OS subsystems (LocalAuthentication, the Security
keychain, the Windows consent verifier) are modelled as explicit
environment parameters: each embedded operation takes the native
outcome(s) it would observe and returns exactly what the Rust code
computes from them.  Machine status codes are `Int` values using the
real OSStatus / LAError constants.
-/

namespace Biometry

/-- Modelled from the spec: the shared error payload (`ErrorResponse` in
`src/error.rs`, which is not part of the provided sources; its shape —
an optional taxonomy `code` and an optional human-readable `message` —
is fixed by every construction site in `src/macos.rs` and
`src/windows.rs`).  The `data: ()` field is omitted as it is constant. -/
structure ErrorResponse where
  code : Option String
  message : Option String
deriving DecidableEq, Repr

/-- Modelled from the spec: the crate-level error type (`crate::Error` in
`src/error.rs`, not in the provided sources).  Call sites show exactly two
constructions: `Error::PluginInvoke(PluginInvokeError::InvokeRejected(r))`
carrying an `ErrorResponse`, and `Error::from(std::io::Error)` carrying
only a raw message string (used by `src/desktop.rs`). -/
inductive PluginError where
  | invokeRejected (response : ErrorResponse)
  | ioError (msg : String)
deriving DecidableEq, Repr

/-- True exactly when the error carries a taxonomy (code, message) pair. -/
def carriesTaxonomyPair : PluginError → Bool
  | .invokeRejected _ => true
  | .ioError _ => false

/-- Boolean success test for `Except`, mirroring `Result::is_ok`. -/
def exceptIsOk {ε α : Type} : Except ε α → Bool
  | .ok _ => true
  | .error _ => false

/-! ## OSStatus and LAError constants (real macOS values) -/

def errSecSuccess : Int := 0
def errSecItemNotFound : Int := -25300
def errSecUserCanceled : Int := -128
def errSecInteractionNotAllowed : Int := -25308
def errSecDuplicateItem : Int := -25299

/-- A native `NSError` from the LocalAuthentication framework: its numeric
`code` (an `LAError` value) and its `localizedDescription`. -/
structure LAErr where
  code : Int
  localizedDescription : String
deriving DecidableEq, Repr

/-- Embeds `la_error_to_string` from `src/macos.rs` (lines 30-45).  The
numeric values are the real `LAError` codes the named variants carry. -/
def la_error_to_string (code : Int) : String :=
  if code = -9 then "appCancel"
  else if code = -1 then "authenticationFailed"
  else if code = -10 then "invalidContext"
  else if code = -1004 then "notInteractive"
  else if code = -5 then "passcodeNotSet"
  else if code = -4 then "systemCancel"
  else if code = -2 then "userCancel"
  else if code = -3 then "userFallback"
  else if code = -8 then "biometryLockout"
  else if code = -6 then "biometryNotAvailable"
  else if code = -7 then "biometryNotEnrolled"
  else "unknown"

/-- The `ErrorResponse` the macOS code builds from a native `NSError`:
`code = la_error_to_string(LAError(ns_error.code()))`,
`message = ns_error.localizedDescription()`. -/
def mapLAErrorResponse (e : LAErr) : ErrorResponse :=
  ⟨some (la_error_to_string e.code), some e.localizedDescription⟩

/-! ## Data model (`src/models.rs`) -/

/-- Embeds `BiometryType` from `src/models.rs` (lines 27-33): a
`repr(u8)` enum with exactly the three declared members
`None = 0`, `TouchID = 1`, `FaceID = 2`. -/
inductive BiometryType where
  | None
  | TouchID
  | FaceID
deriving DecidableEq, Repr, Fintype

/-- The `repr(u8)` discriminant of each declared `BiometryType` member
(the wire ordinal used by `serde_repr`). -/
def BiometryType.toOrdinal : BiometryType → Nat
  | .None => 0
  | .TouchID => 1
  | .FaceID => 2

/-- Embeds `Status` from `src/models.rs`. -/
structure Status where
  is_available : Bool
  biometry_type : BiometryType
  error : Option String
  error_code : Option String
deriving DecidableEq, Repr

/-- Embeds `AuthOptions` from `src/models.rs`. -/
structure AuthOptions where
  allow_device_credential : Option Bool := none
  cancel_title : Option String := none
  fallback_title : Option String := none
  title : Option String := none
  subtitle : Option String := none
  confirmation_required : Option Bool := none
deriving DecidableEq, Repr

/-- Embeds `DataOptions` from `src/models.rs` (also `RemoveDataOptions`). -/
structure DataOptions where
  domain : String
  name : String
deriving DecidableEq, Repr

/-- Embeds `GetDataOptions` from `src/models.rs`. -/
structure GetDataOptions where
  domain : String
  name : String
  reason : String
  cancel_title : Option String := none
deriving DecidableEq, Repr

/-- Embeds `SetDataOptions` from `src/models.rs`. -/
structure SetDataOptions where
  domain : String
  name : String
  data : String
deriving DecidableEq, Repr

/-- Embeds `DataResponse` from `src/models.rs`. -/
structure DataResponse where
  domain : String
  name : String
  data : String
deriving DecidableEq, Repr

/-! ## macOS status resolver (`src/macos.rs`, `Biometry::status`) -/

/-- The native `LABiometryType` values `context.biometryType()` can
report (`other` stands for any value matched by the `_` arm). -/
inductive LAB where
  | none
  | touchID
  | faceID
  | other
deriving DecidableEq, Repr

/-- The mapping of `LABiometryType` to `BiometryType` performed in
`src/macos.rs` lines 77-83 (the `_` arm maps to `None`). -/
def LABToBiometryType : LAB → BiometryType
  | .none => .None
  | .touchID => .TouchID
  | .faceID => .FaceID
  | .other => .None

/-- Native observations made by `Biometry::status` on macOS: the outcome
of `canEvaluatePolicy(.deviceOwnerAuthenticationWithBiometrics)` and the
reported `biometryType`. -/
structure MacStatusEnv where
  canEvaluate : Except LAErr Unit
  biometryType : LAB
deriving Repr

/-- Embeds `Biometry::status` from `src/macos.rs` (lines 51-91) as a
function of the native observations. -/
def macos_status (env : MacStatusEnv) : Except PluginError Status :=
  let is_available := exceptIsOk env.canEvaluate
  let errInfo : Option String × Option String :=
    match env.canEvaluate with
    | .error e => (some e.localizedDescription, some (la_error_to_string e.code))
    | .ok _ => (none, none)
  .ok { is_available := is_available
        biometry_type := LABToBiometryType env.biometryType
        error := errInfo.1
        error_code := errInfo.2 }

/-! ## Windows variant (`src/windows.rs`) -/

/-- The native `UserConsentVerifierAvailability` values (`other` stands
for any value matched by the `_` arm in `src/windows.rs`). -/
inductive WinAvailability where
  | available
  | deviceNotPresent
  | notConfiguredForUser
  | disabledByPolicy
  | deviceBusy
  | other
deriving DecidableEq, Repr

/-- The biometry-kind enumeration `src/windows.rs` assumes: its status
mapping (line 84) writes `BiometryType::Auto`, a variant that
`src/models.rs` does NOT declare.  This separate type records the four
members the Windows code expects so that the Windows mapping is
expressible; compare with `BiometryType`, the enum actually declared. -/
inductive BiometryTypeW where
  | none
  | touchID
  | faceID
  | auto
deriving DecidableEq, Repr

/-- The injection of the declared `BiometryType` members into the
enumeration the Windows code assumes. -/
def modelsToW : BiometryType → BiometryTypeW
  | .None => .none
  | .TouchID => .touchID
  | .FaceID => .faceID

/-- The `Status` record as the Windows variant would populate it (its
`biometry_type` uses `BiometryTypeW`, see `BiometryTypeW`). -/
structure StatusW where
  is_available : Bool
  biometry_type : BiometryTypeW
  error : Option String
  error_code : Option String
deriving DecidableEq, Repr

/-- Embeds `Biometry::status` from `src/windows.rs` (lines 72-123) as a
function of the native outcome: `.error e` models a failure of
`CheckAvailabilityAsync()...get()` itself (with `e` the debug rendering
of the native error), `.ok a` models a returned availability value. -/
def windows_status (native : Except String WinAvailability) :
    Except PluginError StatusW :=
  match native with
  | .error e =>
      .error (.invokeRejected
        ⟨some "internalError",
         some ("Failed to check biometry availability: " ++ e)⟩)
  | .ok availability =>
      let fields : Bool × BiometryTypeW × Option String × Option String :=
        match availability with
        | .available => (true, .auto, none, none)
        | .deviceNotPresent =>
            (false, .none, some "No biometric device found",
             some "biometryNotAvailable")
        | .notConfiguredForUser =>
            (false, .none, some "Biometric authentication not configured",
             some "biometryNotEnrolled")
        | .disabledByPolicy =>
            (false, .none,
             some "Biometric authentication disabled by policy",
             some "biometryNotAvailable")
        | .deviceBusy =>
            (false, .none, some "Biometric device is busy",
             some "systemCancel")
        | .other =>
            (false, .none, some "Unknown availability status",
             some "biometryNotAvailable")
      .ok ⟨fields.1, fields.2.1, fields.2.2.1, fields.2.2.2⟩

/-- The native `UserConsentVerificationResult` values (`other` stands for
any value matched by the `_` arm). -/
inductive WinVerifyResult where
  | verified
  | deviceBusy
  | deviceNotPresent
  | disabledByPolicy
  | notConfiguredForUser
  | canceled
  | retriesExhausted
  | other
deriving DecidableEq, Repr

/-- Native primitives the Windows variant can invoke. -/
inductive WinNativeCall where
  | checkAvailability
  | requestVerification (reason : String)
deriving DecidableEq, Repr

/-- The match on `UserConsentVerificationResult` in `src/windows.rs`
lines 139-192. -/
def winResultToOutcome : WinVerifyResult → Except PluginError Unit
  | .verified => .ok ()
  | .deviceBusy =>
      .error (.invokeRejected ⟨some "systemCancel", some "Device is busy"⟩)
  | .deviceNotPresent =>
      .error (.invokeRejected
        ⟨some "biometryNotAvailable", some "No biometric device found"⟩)
  | .disabledByPolicy =>
      .error (.invokeRejected
        ⟨some "biometryNotAvailable",
         some "Biometric authentication is disabled by policy"⟩)
  | .notConfiguredForUser =>
      .error (.invokeRejected
        ⟨some "biometryNotEnrolled",
         some "Biometric authentication is not configured for the user"⟩)
  | .canceled =>
      .error (.invokeRejected
        ⟨some "userCancel", some "Authentication was canceled by the user"⟩)
  | .retriesExhausted =>
      .error (.invokeRejected
        ⟨some "biometryLockout",
         some "Too many failed authentication attempts"⟩)
  | .other =>
      .error (.invokeRejected
        ⟨some "authenticationFailed", some "Authentication failed"⟩)

/-- Embeds `Biometry::authenticate` from `src/windows.rs` (lines
125-193) as a function of the native verifier outcome (`.error e` models
a failure of `RequestVerificationAsync(...)...get()` itself).  Besides
the result it returns the list of native primitives invoked.  The
fire-and-forget dialog-focus helper is not modelled: it writes nothing
observable to the result.  Note the options parameter is the unread
`_options` of the source. -/
def windows_authenticate (reason : String) (_options : AuthOptions)
    (native : Except String WinVerifyResult) :
    Except PluginError Unit × List WinNativeCall :=
  let outcome : Except PluginError Unit :=
    match native with
    | .error e =>
        .error (.invokeRejected
          ⟨some "internalError",
           some ("Failed to request user verification: " ++ e)⟩)
    | .ok r => winResultToOutcome r
  (outcome, [.requestVerification reason])

/-! ## macOS authenticate (`src/macos.rs`, `Biometry::authenticate`) -/

/-- Native primitives the macOS authenticate flow can invoke.
`canEvaluatePolicy true` is the biometrics-only policy check;
`evaluatePolicy biometricsOnly reason` is the interactive verification
primitive (the native prompt). -/
inductive MacNativeCall where
  | canEvaluatePolicy (biometricsOnly : Bool)
  | evaluatePolicy (biometricsOnly : Bool) (reason : String)
deriving DecidableEq, Repr

/-- Native observations made by `Biometry::authenticate` on macOS: the
outcome of the biometrics-only `canEvaluatePolicy` re-check, and the
reply the native callback would deliver — `none` models the rendezvous
channel being dropped without the callback ever producing a result;
`some (success, errorPtr)` models one callback invocation with those
arguments (`errorPtr = none` models a null error pointer). -/
structure MacAuthEnv where
  canEvaluateBiometry : Except LAErr Unit
  reply : Option (Bool × Option LAErr)

/-- The messages the native reply block of `src/macos.rs` lines 159-187
sends on the result channel for one invocation with the given arguments.
Each of the three source branches performs exactly one `send`. -/
def authCallbackSends (success : Bool) (errorPtr : Option LAErr) :
    List (Except PluginError Unit) :=
  if success then
    [.ok ()]
  else
    match errorPtr with
    | some e => [.error (.invokeRejected (mapLAErrorResponse e))]
    | none =>
        [.error (.invokeRejected
          ⟨some "authenticationFailed", some "Unknown error"⟩)]

/-- The blocking `rx.recv()` of `src/macos.rs` lines 192-201: the first
message sent on the channel, or — when every sender was dropped without
a send — the terminal `authenticationFailed` error. -/
def rendezvousRecv : List (Except PluginError Unit) → Except PluginError Unit
  | [] =>
      .error (.invokeRejected
        ⟨some "authenticationFailed",
         some "Failed to receive authentication result"⟩)
  | r :: _ => r

/-- The prompt phase of macOS authenticate: invoke `evaluatePolicy` with
the selected policy and block on the rendezvous. -/
def macosAuthPrompt (reason : String) (biometricsOnly : Bool)
    (env : MacAuthEnv) : Except PluginError Unit × List MacNativeCall :=
  let sends :=
    match env.reply with
    | some (s, ep) => authCallbackSends s ep
    | none => []
  (rendezvousRecv sends,
   [.canEvaluatePolicy true, .evaluatePolicy biometricsOnly reason])

/-- Embeds `Biometry::authenticate` from `src/macos.rs` (lines 93-202)
as a function of the native observations, also returning the list of
native primitives invoked.  Source structure: re-check the
biometrics-only policy; if it errs and `allow_device_credential`
defaults/resolves to `false`, return the mapped native error without
invoking `evaluatePolicy`; otherwise select the policy
(biometric-only iff the fallback is disallowed) and run the prompt. -/
def macos_authenticate (reason : String) (options : AuthOptions)
    (env : MacAuthEnv) : Except PluginError Unit × List MacNativeCall :=
  let allowDC := options.allow_device_credential.getD false
  match env.canEvaluateBiometry with
  | .error e =>
      if allowDC then
        macosAuthPrompt reason (!allowDC) env
      else
        (.error (.invokeRejected (mapLAErrorResponse e)),
         [.canEvaluatePolicy true])
  | .ok _ => macosAuthPrompt reason (!allowDC) env

/-! ## Keychain environment model and vault operations (`src/macos.rs`)

The generic-password keychain is owned by the OS.  It is modelled here
as a list of entries keyed by `(service, account)` — exactly the key the
source queries use (`kSecAttrService = domain`, `kSecAttrAccount =
name`, with `kSecClass` fixed to generic-password).  `SecItemAdd`,
`SecItemUpdate`, `SecItemCopyMatching` and `SecItemDelete` return the
documented OSStatus codes for the happy path (the interactive /
access-control statuses such as `errSecUserCanceled` come from the OS
prompt and are covered by the pure mapping functions below).  Payloads
are `String`s: the source stores `data.as_bytes()` and decodes with
`String::from_utf8_lossy`, which is the identity on the valid UTF-8
bytes of a Rust `String`. -/

/-- The modelled OS keychain: entries of `((service, account), data)`. -/
structure Keychain where
  items : List ((String × String) × String)
deriving DecidableEq, Repr

/-- First stored payload for `(service, account)`, if any. -/
def kcFind (kc : Keychain) (service account : String) : Option String :=
  (kc.items.find? (fun p => decide (p.1 = (service, account)))).map (fun p => p.2)

/-- Replace the payload of every entry matching `(service, account)`
(`SecItemUpdate` updates all items the query matches). -/
def kcReplace (kc : Keychain) (service account data : String) : Keychain :=
  ⟨kc.items.map (fun p => if p.1 = (service, account) then (p.1, data) else p)⟩

/-- Environment model of `SecItemAdd` for a generic-password insert:
duplicate key reports `errSecDuplicateItem`, otherwise the entry is
inserted and the call succeeds. -/
def secItemAdd (kc : Keychain) (service account data : String) :
    Int × Keychain :=
  if (kcFind kc service account).isSome then (errSecDuplicateItem, kc)
  else (errSecSuccess, ⟨((service, account), data) :: kc.items⟩)

/-- Environment model of `SecItemUpdate` against a
`(class, account, service)` query: replaces the payload when a match
exists, else reports `errSecItemNotFound`. -/
def secItemUpdate (kc : Keychain) (service account data : String) :
    Int × Keychain :=
  if (kcFind kc service account).isSome then
    (errSecSuccess, kcReplace kc service account data)
  else (errSecItemNotFound, kc)

/-- Environment model of `SecItemCopyMatching` requesting the payload of
the single `(class, account, service)` match. -/
def secItemCopyData (kc : Keychain) (service account : String) :
    Int × Option String :=
  match kcFind kc service account with
  | some d => (errSecSuccess, some d)
  | none => (errSecItemNotFound, none)

/-- Environment model of `SecItemDelete` against a
`(class, account, service)` query: removes every match, reporting
`errSecItemNotFound` when nothing matched. -/
def secItemDeleteKc (kc : Keychain) (service account : String) :
    Int × Keychain :=
  if (kcFind kc service account).isSome then
    (errSecSuccess,
     ⟨kc.items.filter (fun p => !decide (p.1 = (service, account)))⟩)
  else (errSecItemNotFound, kc)

/-! ### has_data -/

/-- Keys the keychain queries of `src/macos.rs` use. -/
inductive SecQueryKey where
  | secClass
  | matchLimit
  | useAuthenticationUI
  | attrAccount
  | attrService
  | returnData
  | useOperationPrompt
deriving DecidableEq, Repr

/-- Values the keychain queries of `src/macos.rs` use. -/
inductive SecQueryValue where
  | classGenericPassword
  | matchLimitOne
  | authenticationUIFail
  | booleanTrue
  | str (s : String)
deriving DecidableEq, Repr

/-- The lookup query `Biometry::has_data` builds (`src/macos.rs` lines
209-222): generic-password class, at most one match, the
`kSecUseAuthenticationUIFail` interaction mode (fail rather than
prompt), and the account/service of the key. -/
def hasDataQuery (options : DataOptions) :
    List (SecQueryKey × SecQueryValue) :=
  [(.secClass, .classGenericPassword),
   (.matchLimit, .matchLimitOne),
   (.useAuthenticationUI, .authenticationUIFail),
   (.attrAccount, .str options.name),
   (.attrService, .str options.domain)]

/-- The status mapping of `Biometry::has_data` (`src/macos.rs` lines
240-254): success or interaction-not-allowed means the item exists,
not-found means it does not, anything else is a keychain error. -/
def has_data_map (status : Int) : Except PluginError Bool :=
  if status = errSecSuccess ∨ status = errSecInteractionNotAllowed then
    .ok true
  else if status = errSecItemNotFound then
    .ok false
  else
    .error (.invokeRejected
      ⟨some "keychainError",
       some ("SecItemCopyMatching failed with status: " ++ toString status)⟩)

/-- Embeds `Biometry::has_data` over the modelled keychain: issues the
non-interactive existence lookup and maps the resulting status. -/
def has_data (kc : Keychain) (options : DataOptions) :
    Except PluginError Bool :=
  let st := (secItemCopyData kc options.domain options.name).1
  has_data_map st

/-! ### get_data -/

/-- The query `Biometry::get_data` builds (`src/macos.rs` lines
264-285): one match, payload requested, `reason` as operation prompt. -/
def getDataQuery (options : GetDataOptions) :
    List (SecQueryKey × SecQueryValue) :=
  [(.secClass, .classGenericPassword),
   (.attrAccount, .str options.name),
   (.attrService, .str options.domain),
   (.returnData, .booleanTrue),
   (.matchLimit, .matchLimitOne),
   (.useOperationPrompt, .str options.reason)]

/-- The status/payload mapping of `Biometry::get_data` (`src/macos.rs`
lines 306-359): success with a payload returns it (key echoed back);
success with a null payload is `dataError`; then `itemNotFound`,
`userCancel`, `authenticationRequired`, and the `keychainError`
catch-all carrying the native status. -/
def get_data_map (domain name : String) (status : Int)
    (out : Option String) : Except PluginError DataResponse :=
  if status = errSecSuccess then
    match out with
    | some data => .ok ⟨domain, name, data⟩
    | none =>
        .error (.invokeRejected
          ⟨some "dataError", some "SecItemCopyMatching returned null data"⟩)
  else if status = errSecItemNotFound then
    .error (.invokeRejected
      ⟨some "itemNotFound",
       some ("Error retrieving item from keychain: " ++ toString status)⟩)
  else if status = errSecUserCanceled then
    .error (.invokeRejected ⟨some "userCancel", some "User canceled"⟩)
  else if status = errSecInteractionNotAllowed then
    .error (.invokeRejected
      ⟨some "authenticationRequired",
       some "Authentication required but UI interaction is not allowed"⟩)
  else
    .error (.invokeRejected
      ⟨some "keychainError",
       some ("Error retrieving item from keychain: " ++ toString status)⟩)

/-- Embeds `Biometry::get_data` over the modelled keychain (the
interactive statuses are produced by the OS prompt and are exercised
through `get_data_map` directly). -/
def get_data (kc : Keychain) (options : GetDataOptions) :
    Except PluginError DataResponse :=
  let (st, out) := secItemCopyData kc options.domain options.name
  get_data_map options.domain options.name st out

/-! ### set_data -/

/-- Embeds `Biometry::set_data` (`src/macos.rs` lines 363-491) over the
modelled keychain: attempt `SecItemAdd`; on `errSecDuplicateItem`
instead issue `SecItemUpdate` against the `(class, account, service)`
match, replacing the payload; any terminal status other than success is
a `keychainError`. -/
def set_data (kc : Keychain) (options : SetDataOptions) :
    Except PluginError Unit × Keychain :=
  let r1 := secItemAdd kc options.domain options.name options.data
  let r2 :=
    if r1.1 = errSecDuplicateItem then
      secItemUpdate r1.2 options.domain options.name options.data
    else r1
  if r2.1 = errSecSuccess then (.ok (), r2.2)
  else
    (.error (.invokeRejected
      ⟨some "keychainError",
       some ("Error adding item to keychain: " ++ toString r2.1)⟩), r2.2)

/-! ### remove_data -/

/-- The status mapping of `Biometry::remove_data` (`src/macos.rs` lines
528-538): success and not-found are both overall success (idempotent
delete); anything else is a keychain error. -/
def remove_data_map (status : Int) : Except PluginError Unit :=
  if status = errSecSuccess ∨ status = errSecItemNotFound then .ok ()
  else
    .error (.invokeRejected
      ⟨some "keychainError",
       some ("Error deleting item from keychain: " ++ toString status)⟩)

/-- Embeds `Biometry::remove_data` over the modelled keychain. -/
def remove_data (kc : Keychain) (options : DataOptions) :
    Except PluginError Unit × Keychain :=
  let r := secItemDeleteKc kc options.domain options.name
  (remove_data_map r.1, r.2)

/-! ## Build-time variant selection (`src/lib.rs`) and the desktop stub
(`src/desktop.rs`) -/

/-- Build targets relevant to the `cfg` gates of `src/lib.rs`. -/
inductive BuildTarget where
  | macos
  | linux
  | windowsOS
  | android
  | ios
deriving DecidableEq, Repr

/-- The implementation variants present in the repository.
`macosKeychain` is the LocalAuthentication/keychain implementation of
`src/macos.rs`. -/
inductive ImplVariant where
  | desktopStub
  | windowsImpl
  | mobileImpl
  | macosKeychain
deriving DecidableEq, Repr

/-- Embeds the module selection of `src/lib.rs` (lines 8-26):
`cfg(all(desktop, not(windows)))` selects `desktop::Biometry`,
`cfg(windows)` selects `windows::Biometry`, `cfg(mobile)` selects
`mobile::Biometry`.  No `mod macos` declaration exists in `src/lib.rs`,
so no target selects the `src/macos.rs` implementation. -/
def selectedImpl : BuildTarget → ImplVariant
  | .macos => .desktopStub
  | .linux => .desktopStub
  | .windowsOS => .windowsImpl
  | .android => .mobileImpl
  | .ios => .mobileImpl

/-- The single error every operation of `src/desktop.rs` returns:
a raw io error with a message and no taxonomy pair. -/
def desktopUnsupportedError : PluginError :=
  .ioError "Biometry is not supported on desktop platforms"

/-- Embeds `Biometry::status` from `src/desktop.rs`. -/
def desktop_status : Except PluginError Status :=
  .error desktopUnsupportedError

/-- Embeds `Biometry::authenticate` from `src/desktop.rs`. -/
def desktop_authenticate (_reason : String) (_options : AuthOptions) :
    Except PluginError Unit :=
  .error desktopUnsupportedError

/-- Embeds `Biometry::has_data` from `src/desktop.rs`. -/
def desktop_has_data (_options : DataOptions) : Except PluginError Bool :=
  .error desktopUnsupportedError

/-- Embeds `Biometry::get_data` from `src/desktop.rs`. -/
def desktop_get_data (_options : GetDataOptions) :
    Except PluginError DataResponse :=
  .error desktopUnsupportedError

/-- Embeds `Biometry::set_data` from `src/desktop.rs`. -/
def desktop_set_data (_options : SetDataOptions) : Except PluginError Unit :=
  .error desktopUnsupportedError

/-- Embeds `Biometry::remove_data` from `src/desktop.rs`. -/
def desktop_remove_data (_options : DataOptions) : Except PluginError Unit :=
  .error desktopUnsupportedError

/-- Checks that a status result is a successful record folding a native
failure: `is_available = false` with `error` and `error_code` populated. -/
def statusFoldsFailure : Except PluginError StatusW → Bool
  | .ok s => !s.is_available && s.error.isSome && s.error_code.isSome
  | .error _ => false

/-! ## Theorems -/

/-- C1 counterexample: on the Windows variant, a failure of the native
availability call itself (`CheckAvailabilityAsync()...get()` returning an
error) makes `status` return an error instead of a `BiometryStatus`
record — refuting "status never returns an error ... on every platform
variant (macOS and Windows included)" at this concrete input. -/
theorem windows_status_error_counterexample :
    windows_status (.error "0x80004005") =
      .error (.invokeRejected
        ⟨some "internalError",
         some "Failed to check biometry availability: 0x80004005"⟩) := rfl

/-- C1 (amended): the macOS `status` never returns an error — a native
evaluation failure is folded into `is_available = false` with `error`
and `error_code` populated; the Windows `status`, once the native call
returns an availability value, also never errs and folds every
non-available value into `is_available = false` with both error fields
populated (the error path of the Windows variant arises only when the
native availability call itself fails, per the counterexample). -/
theorem status_folds_native_failure :
    (∀ (e : LAErr) (lab : LAB),
        macos_status ⟨.error e, lab⟩ =
          .ok ⟨false, LABToBiometryType lab, some e.localizedDescription,
               some (la_error_to_string e.code)⟩) ∧
    (∀ lab : LAB, macos_status ⟨.ok (), lab⟩ =
        .ok ⟨true, LABToBiometryType lab, none, none⟩) ∧
    (∀ a : WinAvailability, a ≠ .available →
        statusFoldsFailure (windows_status (.ok a)) = true) ∧
    windows_status (.ok .available) = .ok ⟨true, .auto, none, none⟩ := by
  refine ⟨fun e lab => rfl, fun lab => rfl, ?_, rfl⟩
  intro a h
  cases a with
  | available => exact absurd rfl h
  | deviceNotPresent => rfl
  | notConfiguredForUser => rfl
  | disabledByPolicy => rfl
  | deviceBusy => rfl
  | other => rfl

/-- C1 witness: the amended theorem applied to the concrete availability
value `deviceBusy`. -/
theorem status_folds_native_failure_witness :
    statusFoldsFailure (windows_status (.ok .deviceBusy)) = true :=
  status_folds_native_failure.2.2.1 .deviceBusy (by decide)

/-- C2: when the biometrics-only availability re-check fails and
`allow_device_credential` resolves to `false` (absent defaults to
`false`), macOS `authenticate` returns the mapped native error at once,
and the native-call trace contains only the availability check — the
native verification primitive (`evaluatePolicy`, the prompt) is never
invoked. -/
theorem macos_authenticate_precheck_no_prompt :
    ∀ (reason : String) (options : AuthOptions) (env : MacAuthEnv)
      (e : LAErr),
      env.canEvaluateBiometry = .error e →
      options.allow_device_credential.getD false = false →
      macos_authenticate reason options env =
        (.error (.invokeRejected (mapLAErrorResponse e)),
         [.canEvaluatePolicy true]) := by
  intro reason options env e hce hdc
  simp [macos_authenticate, hce, hdc]

/-- C2 witness: a concrete device where the biometrics-only check
reports code -6 (biometryNotAvailable) and the request leaves
`allow_device_credential` unset. -/
theorem macos_authenticate_precheck_witness :
    macos_authenticate "login" {} ⟨.error ⟨-6, "no biometrics"⟩, none⟩ =
      (.error (.invokeRejected (mapLAErrorResponse ⟨-6, "no biometrics"⟩)),
       [.canEvaluatePolicy true]) :=
  macos_authenticate_precheck_no_prompt "login" {}
    ⟨.error ⟨-6, "no biometrics"⟩, none⟩ ⟨-6, "no biometrics"⟩ rfl rfl

/-- C3: `has_data` issues its lookup with the fail-rather-than-prompt
interaction mode (`kSecUseAuthenticationUIFail` is in the query, so the
OS fails the lookup instead of prompting — no user interaction), and its
status mapping is: success ⇒ true, interaction-not-allowed ⇒ true,
not-found ⇒ false, any other status ⇒ the mapped `keychainError`. -/
theorem has_data_failfast_mapping :
    (∀ options : DataOptions,
        (SecQueryKey.useAuthenticationUI,
         SecQueryValue.authenticationUIFail) ∈ hasDataQuery options) ∧
    has_data_map errSecSuccess = .ok true ∧
    has_data_map errSecInteractionNotAllowed = .ok true ∧
    has_data_map errSecItemNotFound = .ok false ∧
    (∀ st : Int, st ≠ errSecSuccess → st ≠ errSecInteractionNotAllowed →
        st ≠ errSecItemNotFound →
        has_data_map st =
          .error (.invokeRejected
            ⟨some "keychainError",
             some ("SecItemCopyMatching failed with status: " ++
               toString st)⟩)) := by
  refine ⟨?_, rfl, rfl, rfl, ?_⟩
  · intro options; simp [hasDataQuery]
  · intro st h1 h2 h3
    simp [has_data_map, h1, h2, h3]

/-- C3 witness: the mapping applied to the concrete native status -34
(not success, not interaction-not-allowed, not not-found). -/
theorem has_data_failfast_mapping_witness :
    has_data_map (-34) =
      .error (.invokeRejected
        ⟨some "keychainError",
         some ("SecItemCopyMatching failed with status: " ++
           toString (-34 : Int))⟩) :=
  has_data_failfast_mapping.2.2.2.2 (-34) (by decide) (by decide) (by decide)

/-- C5: `get_data` maps the native outcome exactly as stated — success
with a payload returns it with the key echoed back; success with a null
payload is `dataError`; not-found is `itemNotFound`; user cancellation
is `userCancel`; interaction disallowed is `authenticationRequired`;
any other status is `keychainError` carrying the native status code. -/
theorem get_data_status_mapping :
    ∀ domain name : String,
      (∀ payload : String,
          get_data_map domain name errSecSuccess (some payload) =
            .ok ⟨domain, name, payload⟩) ∧
      get_data_map domain name errSecSuccess none =
        .error (.invokeRejected
          ⟨some "dataError",
           some "SecItemCopyMatching returned null data"⟩) ∧
      (∀ out, get_data_map domain name errSecItemNotFound out =
          .error (.invokeRejected
            ⟨some "itemNotFound",
             some ("Error retrieving item from keychain: " ++
               toString errSecItemNotFound)⟩)) ∧
      (∀ out, get_data_map domain name errSecUserCanceled out =
          .error (.invokeRejected
            ⟨some "userCancel", some "User canceled"⟩)) ∧
      (∀ out, get_data_map domain name errSecInteractionNotAllowed out =
          .error (.invokeRejected
            ⟨some "authenticationRequired",
             some "Authentication required but UI interaction is not allowed"⟩)) ∧
      (∀ (st : Int) (out : Option String),
          st ≠ errSecSuccess → st ≠ errSecItemNotFound →
          st ≠ errSecUserCanceled → st ≠ errSecInteractionNotAllowed →
          get_data_map domain name st out =
            .error (.invokeRejected
              ⟨some "keychainError",
               some ("Error retrieving item from keychain: " ++
                 toString st)⟩)) := by
  intro domain name
  refine ⟨fun payload => rfl, rfl, fun out => rfl, fun out => rfl,
          fun out => rfl, ?_⟩
  intro st out h1 h2 h3 h4
  simp [get_data_map, h1, h2, h3, h4]

/-- C5 witness: the mapping applied to the concrete native status -61
with a null payload. -/
theorem get_data_status_mapping_witness :
    get_data_map "vault" "token" (-61) none =
      .error (.invokeRejected
        ⟨some "keychainError",
         some ("Error retrieving item from keychain: " ++
           toString (-61 : Int))⟩) :=
  (get_data_status_mapping "vault" "token").2.2.2.2.2 (-61) none
    (by decide) (by decide) (by decide) (by decide)

/-- C6: `remove_data` succeeds both when the delete succeeds and when
the item was absent (idempotent delete), and any other native status is
a mapped `keychainError`. -/
theorem remove_data_idempotent :
    (∀ (kc : Keychain) (options : DataOptions),
        (remove_data kc options).1 = .ok ()) ∧
    (∀ st : Int, st ≠ errSecSuccess → st ≠ errSecItemNotFound →
        remove_data_map st =
          .error (.invokeRejected
            ⟨some "keychainError",
             some ("Error deleting item from keychain: " ++
               toString st)⟩)) := by
  constructor
  · intro kc options
    unfold remove_data secItemDeleteKc
    by_cases h : (kcFind kc options.domain options.name).isSome <;>
      simp [h, remove_data_map, errSecSuccess, errSecItemNotFound]
  · intro st h1 h2
    simp [remove_data_map, h1, h2]

/-- C6 witness: removing on the empty keychain (the key is absent)
still succeeds, and the mapping rejects the concrete status -50. -/
theorem remove_data_idempotent_witness :
    (remove_data ⟨[]⟩ ⟨"vault", "token"⟩).1 = .ok () ∧
    remove_data_map (-50) =
      .error (.invokeRejected
        ⟨some "keychainError",
         some ("Error deleting item from keychain: " ++
           toString (-50 : Int))⟩) :=
  ⟨remove_data_idempotent.1 ⟨[]⟩ ⟨"vault", "token"⟩,
   remove_data_idempotent.2 (-50) (by decide) (by decide)⟩

/-- C7: the native reply block sends exactly one result on the one-shot
rendezvous for every invocation, and whenever the rendezvous is dropped
with no result ever produced (`reply = none`) on a call that reaches the
prompt, `authenticate` returns the terminal `authenticationFailed` error
instead of blocking forever. -/
theorem macos_authenticate_rendezvous :
    (∀ (s : Bool) (ep : Option LAErr),
        (authCallbackSends s ep).length = 1) ∧
    (∀ (reason : String) (options : AuthOptions) (env : MacAuthEnv),
        env.reply = none →
        (exceptIsOk env.canEvaluateBiometry ||
          options.allow_device_credential.getD false) = true →
        (macos_authenticate reason options env).1 =
          .error (.invokeRejected
            ⟨some "authenticationFailed",
             some "Failed to receive authentication result"⟩)) := by
  constructor
  · intro s ep
    cases s with
    | true => rfl
    | false => cases ep <;> rfl
  · intro reason options env hrep hreach
    cases hce : env.canEvaluateBiometry with
    | ok u =>
        simp [macos_authenticate, hce, macosAuthPrompt, hrep, rendezvousRecv]
    | error e =>
        rw [hce] at hreach
        simp [exceptIsOk] at hreach
        simp [macos_authenticate, hce, hreach, macosAuthPrompt, hrep,
              rendezvousRecv]

/-- C7 witness: a concrete call where biometry is available, the reply
block never fires and the channel is dropped. -/
theorem macos_authenticate_rendezvous_witness :
    (macos_authenticate "login" {} ⟨.ok (), none⟩).1 =
      .error (.invokeRejected
        ⟨some "authenticationFailed",
         some "Failed to receive authentication result"⟩) :=
  macos_authenticate_rendezvous.2 "login" {} ⟨.ok (), none⟩ rfl rfl

/-- C10: on the Windows variant, `authenticate` is independent of the
`AuthOptions` argument — any two options values with the same reason and
native outcome give the same result — and its native-call trace is
always exactly one `RequestVerification(reason)` with no availability
pre-check. -/
theorem windows_authenticate_options_independent :
    (∀ (reason : String) (o1 o2 : AuthOptions)
        (native : Except String WinVerifyResult),
        windows_authenticate reason o1 native =
          windows_authenticate reason o2 native) ∧
    (∀ (reason : String) (options : AuthOptions)
        (native : Except String WinVerifyResult),
        (windows_authenticate reason options native).2 =
          [WinNativeCall.requestVerification reason]) :=
  ⟨fun _ _ _ _ => rfl, fun _ _ _ => rfl⟩

/-- Replacing the payload of every matching entry commutes with lookup:
the first match after the replacement is the first match before it, with
its payload replaced. -/
theorem find?_replaceVal (l : List ((String × String) × String))
    (k : String × String) (v : String) :
    (l.map (fun p => if p.1 = k then (p.1, v) else p)).find?
        (fun p => decide (p.1 = k)) =
      (l.find? (fun p => decide (p.1 = k))).map (fun q => (q.1, v)) := by
  induction l with
  | nil => rfl
  | cons p l ih =>
      by_cases hp : p.1 = k
      · simp [List.find?_cons, hp]
      · simp [List.find?_cons, hp, ih]

/-- After replacing the payload of every matching entry with `v`, every
matching entry holds `v`. -/
theorem filter_replaceVal_all (l : List ((String × String) × String))
    (k : String × String) (v : String) :
    ((l.map (fun p => if p.1 = k then (p.1, v) else p)).filter
        (fun p => decide (p.1 = k))).all (fun p => decide (p.2 = v)) = true := by
  induction l with
  | nil => rfl
  | cons p l ih =>
      by_cases hp : p.1 = k <;> simp_all [List.filter_cons, hp, ih]

/-- Prepending a fresh entry to a list with no entry for its key leaves
it the sole matching entry. -/
theorem filter_fresh_all (l : List ((String × String) × String))
    (k : String × String) (v : String)
    (h : l.find? (fun p => decide (p.1 = k)) = none) :
    (((k, v) :: l).filter (fun p => decide (p.1 = k))).all
        (fun p => decide (p.2 = v)) = true := by
  have hl : l.filter (fun p => decide (p.1 = k)) = [] := by
    rw [List.filter_eq_nil_iff]
    intro a ha
    have := List.find?_eq_none.mp h a ha
    simpa using this
  simp [List.filter_cons, hl]

/-- Specification of one `set_data` call against the modelled keychain:
it succeeds, afterwards the key looks up to the written payload, and
every entry stored under the key holds that payload. -/
theorem set_data_spec (kc : Keychain) (d n v : String) :
    (set_data kc ⟨d, n, v⟩).1 = .ok () ∧
    kcFind (set_data kc ⟨d, n, v⟩).2 d n = some v ∧
    ((set_data kc ⟨d, n, v⟩).2.items.filter
        (fun p => decide (p.1 = (d, n)))).all
      (fun p => decide (p.2 = v)) = true := by
  by_cases h : (kcFind kc d n).isSome
  · obtain ⟨q, hq⟩ : ∃ q,
        kc.items.find? (fun p => decide (p.1 = (d, n))) = some q := by
      unfold kcFind at h
      cases hfq : kc.items.find? (fun p => decide (p.1 = (d, n))) with
      | none => rw [hfq] at h; simp at h
      | some q => exact ⟨q, rfl⟩
    have hset : set_data kc ⟨d, n, v⟩ = (.ok (), kcReplace kc d n v) := by
      simp [set_data, secItemAdd, secItemUpdate, h, errSecDuplicateItem,
            errSecSuccess]
    have hrepl : (kc.items.map
        (fun p => if p.1 = (d, n) then (p.1, v) else p)).find?
          (fun p => decide (p.1 = (d, n))) = some (q.1, v) := by
      rw [find?_replaceVal, hq]; rfl
    have hfindR : kcFind (kcReplace kc d n v) d n = some v := by
      unfold kcFind kcReplace
      rw [hrepl]; rfl
    exact ⟨by rw [hset], by rw [hset]; exact hfindR,
           by rw [hset]; exact filter_replaceVal_all kc.items (d, n) v⟩
  · have hfq : kc.items.find? (fun p => decide (p.1 = (d, n))) = none := by
      cases hfq : kc.items.find? (fun p => decide (p.1 = (d, n))) with
      | none => rfl
      | some q => exfalso; apply h; unfold kcFind; rw [hfq]; rfl
    have hset : set_data kc ⟨d, n, v⟩ =
        (.ok (), ⟨((d, n), v) :: kc.items⟩) := by
      simp [set_data, secItemAdd, secItemUpdate, h, errSecDuplicateItem,
            errSecSuccess]
    have hfindC : kcFind ⟨((d, n), v) :: kc.items⟩ d n = some v := by
      unfold kcFind
      simp [List.find?_cons]
    exact ⟨by rw [hset], by rw [hset]; exact hfindC,
           by rw [hset]; exact filter_fresh_all kc.items (d, n) v hfq⟩

/-- C4: `set_data(k, v)` followed by `get_data(k)` returns `v` unchanged
(key echoed back); `set_data(k, v1)` then `set_data(k, v2)` then
`get_data(k)` returns `v2`; and after the two writes every entry stored
under `k` holds `v2` — the write is an upsert replacing the payload in
place, not an append and not a failure on an existing key. -/
theorem set_get_roundtrip_upsert :
    ∀ (kc : Keychain) (d n v v1 v2 reason : String) (ct : Option String),
      (set_data kc ⟨d, n, v⟩).1 = .ok () ∧
      get_data (set_data kc ⟨d, n, v⟩).2 ⟨d, n, reason, ct⟩ =
        .ok ⟨d, n, v⟩ ∧
      get_data (set_data (set_data kc ⟨d, n, v1⟩).2 ⟨d, n, v2⟩).2
          ⟨d, n, reason, ct⟩ = .ok ⟨d, n, v2⟩ ∧
      ((set_data (set_data kc ⟨d, n, v1⟩).2 ⟨d, n, v2⟩).2.items.filter
          (fun p => decide (p.1 = (d, n)))).all
        (fun p => decide (p.2 = v2)) = true := by
  intro kc d n v v1 v2 reason ct
  have h1 := set_data_spec kc d n v
  have h2 := set_data_spec (set_data kc ⟨d, n, v1⟩).2 d n v2
  refine ⟨h1.1, ?_, ?_, h2.2.2⟩
  · simp [get_data, secItemCopyData, h1.2.1, get_data_map, errSecSuccess]
  · simp [get_data, secItemCopyData, h2.2.1, get_data_map, errSecSuccess]

/-- C8: the `BiometryType` enumeration `src/models.rs` declares has
exactly three members with ordinals 0, 1, 2 — there is no fourth
auto/unspecified member (every declared member injects into one of
`none`, `touchID`, `faceID`) — while the Windows status mapping of the
native `Available` result writes the undeclared fourth member `Auto`. -/
theorem biometryType_enumeration_mismatch :
    Fintype.card BiometryType = 3 ∧
    (∀ b : BiometryType,
        modelsToW b = .none ∨ modelsToW b = .touchID ∨
        modelsToW b = .faceID) ∧
    windows_status (.ok .available) = .ok ⟨true, .auto, none, none⟩ ∧
    BiometryType.toOrdinal .None = 0 ∧
    BiometryType.toOrdinal .TouchID = 1 ∧
    BiometryType.toOrdinal .FaceID = 2 := by
  refine ⟨by decide, ?_, rfl, rfl, rfl, rfl⟩
  intro b; cases b <;> simp [modelsToW]

/-- C9: the build-time module selection of `src/lib.rs` resolves every
target to the desktop stub, the Windows implementation or the mobile
bridge — never to the `src/macos.rs` keychain implementation (no
`mod macos` exists) — and on non-Windows desktop targets (macOS
included) every one of the six operations returns the raw io error
"Biometry is not supported on desktop platforms", which carries no
taxonomy (code, message) pair. -/
theorem desktop_variant_unsupported_raw :
    (∀ t : BuildTarget,
        selectedImpl t = .desktopStub ∨ selectedImpl t = .windowsImpl ∨
        selectedImpl t = .mobileImpl) ∧
    selectedImpl .macos = .desktopStub ∧
    selectedImpl .linux = .desktopStub ∧
    desktop_status = .error desktopUnsupportedError ∧
    (∀ (reason : String) (options : AuthOptions),
        desktop_authenticate reason options = .error desktopUnsupportedError) ∧
    (∀ options : DataOptions,
        desktop_has_data options = .error desktopUnsupportedError) ∧
    (∀ options : GetDataOptions,
        desktop_get_data options = .error desktopUnsupportedError) ∧
    (∀ options : SetDataOptions,
        desktop_set_data options = .error desktopUnsupportedError) ∧
    (∀ options : DataOptions,
        desktop_remove_data options = .error desktopUnsupportedError) ∧
    desktopUnsupportedError =
      .ioError "Biometry is not supported on desktop platforms" ∧
    carriesTaxonomyPair desktopUnsupportedError = false := by
  refine ⟨?_, rfl, rfl, rfl, fun _ _ => rfl, fun _ => rfl, fun _ => rfl,
          fun _ => rfl, fun _ => rfl, rfl, rfl⟩
  intro t; cases t <;> simp [selectedImpl]

end Biometry
